import Mathlib

/-
Verification of perplexity_improved.py (MiddleDistances/perplexity-cli).

The Python source is shallowly embedded: JSON values are an inductive type,
the process's terminal output is a list of printed lines, the network is a
script of responses (one consumed per requests.post call), user input is a
script of strings (one consumed per input() call), and the settings file is
an explicit state value.  Python exceptions that escape to main's
"except Exception" handler are modelled by an error value threaded through
the functions; sys.exit(n) is a distinct terminal outcome.
-/

set_option autoImplicit false

namespace PerplexityCli

/-- JSON values, the result of Python json.load / response.json(). -/
inductive Json where
  | null
  | bool (b : Bool)
  | num (n : Int)
  | str (s : String)
  | arr (xs : List Json)
  | obj (fields : List (String × Json))

/-- Python exceptions that can escape get_response into main's handler.
TypeError stands for the interpreter's type errors (indexing or iterating a
value of the wrong type); its message text is not modelled. -/
inductive PyErr where
  | keyError (k : String)
  | typeError
  deriving DecidableEq

/-- Python repr() restricted to the JSON values above (string escaping inside
reprs is not modelled; no claim depends on it). -/
def pyRepr : Json → String
  | .null => "None"
  | .bool true => "True"
  | .bool false => "False"
  | .num n => toString n
  | .str s => "\x27" ++ s ++ "\x27"
  | .arr xs => "[" ++ String.intercalate ", " (xs.attach.map (fun x => pyRepr x.1)) ++ "]"
  | .obj fs =>
      "\x7b" ++
        String.intercalate ", "
          (fs.attach.map (fun p => "\x27" ++ p.1.1 ++ "\x27: " ++ pyRepr p.1.2)) ++
      "\x7d"
decreasing_by
  · have h := List.sizeOf_lt_of_mem x.2
    simp only [Json.arr.sizeOf_spec]
    omega
  · obtain ⟨⟨a, b⟩, hp⟩ := p
    have h := List.sizeOf_lt_of_mem hp
    simp only [Json.obj.sizeOf_spec, Prod.mk.sizeOf_spec] at h ⊢
    omega

/-- Python str() on a JSON value (str() of a string is the string itself). -/
def pyStr : Json → String
  | .str s => s
  | j => pyRepr j

/-- Python truthiness of a JSON value. -/
def Json.truthy : Json → Bool
  | .null => false
  | .bool b => b
  | .num n => n != 0
  | .str s => s != ""
  | .arr xs => !xs.isEmpty
  | .obj fs => !fs.isEmpty

/-- Substring test, for Python's "k in s" on strings. -/
def containsSubstr (s sub : String) : Bool :=
  (s.splitOn sub).length > 1

/-- Python "k in v" for a string k: dict key membership, list membership
(a string compares equal only to an equal string), substring test on
strings; TypeError on the other values. -/
def pyContains (v : Json) (k : String) : Except PyErr Bool :=
  match v with
  | .obj fs => .ok (fs.lookup k).isSome
  | .arr xs => .ok (xs.any (fun e => match e with | .str s => s == k | _ => false))
  | .str s => .ok (containsSubstr s k)
  | _ => .error .typeError

/-- Python v[k] for a string key k: dict lookup (KeyError when missing),
TypeError on non-dict values. -/
def pyField (v : Json) (k : String) : Except PyErr Json :=
  match v with
  | .obj fs =>
      match fs.lookup k with
      | some x => .ok x
      | none => .error (.keyError k)
  | _ => .error .typeError

/-- Python v[i] for a non-negative integer index i: list indexing, string
indexing (yields a one-character string), KeyError on dicts (an integer is
looked up as a key and is absent from these string-keyed dicts), TypeError
otherwise.  Out-of-range list and string indexing both raise (modelled as
TypeError; the claims never distinguish IndexError from TypeError). -/
def pyIndex (v : Json) (i : Nat) : Except PyErr Json :=
  match v with
  | .arr xs =>
      match xs.get? i with
      | some x => .ok x
      | none => .error .typeError
  | .str s =>
      match s.data.get? i with
      | some c => .ok (.str (String.singleton c))
      | none => .error .typeError
  | .obj _ => .error (.keyError (toString i))
  | _ => .error .typeError

/-- Python str.strip() with no argument: remove leading and trailing
whitespace.  (Python also strips some further Unicode whitespace; every
string the source strips and then compares is ASCII.) -/
def pyStrip (s : String) : String :=
  String.mk (((s.data.dropWhile Char.isWhitespace).reverse.dropWhile Char.isWhitespace).reverse)

/-- Python str.lower(): lowercase each character (ASCII; the source only
compares lowercased answers against the ASCII letters y/n). -/
def pyLower (s : String) : String :=
  String.mk (s.data.map Char.toLower)

/-- Color code table of display() (values include the trailing m). -/
def displayColors : List (String × String) :=
  [("red", "91m"), ("green", "92m"), ("yellow", "93m"), ("blue", "94m"), ("white", "97m")]

/-- Background color code table of display(). -/
def displayBgColors : List (String × String) :=
  [("black", "40"), ("red", "41"), ("green", "42"), ("yellow", "43"),
   ("blue", "44"), ("white", "47")]

/-- The line printed by display(message, color, bold, bg_color).  All call
sites in the source use colors present in the tables, so the dictionary
lookups are total there; a missing color defaults to the empty code. -/
def display (message : String) (color : String) (bold : Bool) (bgColor : String) : String :=
  let c := (displayColors.lookup color).getD ""
  let bg := (displayBgColors.lookup bgColor).getD ""
  if bold then
    "\x1b[1;" ++ bg ++ ";" ++ c ++ " " ++ message ++ "\x1b[0m"
  else
    "\x1b[" ++ bg ++ ";" ++ c ++ " " ++ message ++ "\x1b[0m"

/-- State of the settings file CONFIG_FILE: absent, present but unreadable or
not valid JSON, or present with a parsed JSON object. -/
inductive FileState where
  | absent
  | malformed
  | stored (doc : List (String × Json))

/-- ConfigManager.load_config: returns the parsed file contents; when the file
is absent, or reading/parsing raises, the error is logged (not raised) and the
empty mapping is returned. -/
def load_config : FileState → List (String × Json)
  | .absent => []
  | .malformed => []
  | .stored d => d

/-- ConfigManager.save_config: creates the directory and writes the full
mapping, overwriting the previous file contents.  A write failure would be
logged, not raised; the file system itself is modelled as reliable. -/
def save_config (config : List (String × Json)) : FileState → FileState :=
  fun _ => .stored config

/-- Python dict assignment d[k] = v on an association list with unique keys:
replaces the value at the first (only) occurrence of the key, keeping its
position, and otherwise appends the new entry at the end (dicts preserve
insertion order and put a new key last). -/
def dictSet (d : List (String × Json)) (k : String) (v : Json) : List (String × Json) :=
  match d with
  | [] => [(k, v)]
  | (a, b) :: t => if a = k then (k, v) :: t else (a, b) :: dictSet t k v

/-- ConfigManager.save_api_key: load the existing config, set its api_key
entry, and save the result. -/
def save_api_key (apiKey : String) (fs : FileState) : FileState :=
  save_config (dictSet (load_config fs) "api_key" (.str apiKey)) fs

/-- ConfigManager.get_api_key: the PERPLEXITY_API_KEY environment variable if
set and non-empty (Python truthiness), else the config file's api_key entry
(None when absent).  The environment value is a string; the file entry is
whatever JSON value is stored. -/
def get_api_key (env : Option String) (fs : FileState) : Option Json :=
  match env with
  | some e => if e != "" then some (.str e) else (load_config fs).lookup "api_key"
  | none => (load_config fs).lookup "api_key"

/-- The fixed list AVAILABLE_MODELS. -/
def AVAILABLE_MODELS : List String :=
  ["sonar-reasoning-pro", "sonar-reasoning", "sonar-pro", "sonar"]

/-- ModelValidator.validate: membership in AVAILABLE_MODELS. -/
def ModelValidator.validate (model : String) : Bool :=
  AVAILABLE_MODELS.contains model

/-- Message of the InvalidSelectedModelException raised by Perplexity.__init__
(str() of the Python list of available models). -/
def invalidModelMessage (model : String) : String :=
  "Invalid model: " ++ model ++ "\nAvailable models: " ++
    pyStr (.arr (AVAILABLE_MODELS.map .str))

/-- The flag and option fields of ApiConfig that get_response reads (the api
key is threaded separately because the 401 branch replaces it). -/
structure ApiConfig where
  usage : Bool := false
  citations : Bool := false
  model : String := ""

/-- Output of a code fragment: the lines it printed, and the exception it
raised, if any (in which case later fragments of the same body never run). -/
abbrev POut := List String × Option PyErr

/-- Sequencing of two fragments: the second runs only when the first did not
raise. -/
def POut.seq : POut → POut → POut
  | (l, some e), _ => (l, some e)
  | (l, none), (l2, e2) => (l ++ l2, e2)

/-- Perplexity._show_usage: header (glow or plain), then one line per
usage entry, then a blank line.  Iterating .items() on a non-dict raises
after the header is printed. -/
def show_usage (result : Json) (useGlow : Bool) : POut :=
  let header := if useGlow then "# Tokens" else display "Tokens" "yellow" true "blue"
  match result with
  | .obj fs => (header :: fs.map (fun p => "- " ++ p.1 ++ ": " ++ pyStr p.2) ++ [""], none)
  | _ => ([header], some .typeError)

/-- Python iteration (for element in v): lists yield elements, dicts yield
their keys, strings yield one-character strings; TypeError otherwise. -/
def pyIter : Json → Except PyErr (List Json)
  | .arr xs => .ok xs
  | .obj fs => .ok (fs.map (fun p => .str p.1))
  | .str s => .ok (s.data.map (fun c => .str (String.singleton c)))
  | _ => .error .typeError

/-- Perplexity._show_citations: header (glow or plain), then one line per
element, then a blank line.  Iterating a non-iterable raises after the header
is printed. -/
def show_citations (result : Json) (useGlow : Bool) : POut :=
  let header := if useGlow then "# Citations" else display "Citations" "yellow" true "blue"
  match pyIter result with
  | .ok elems => (header :: elems.map (fun e => "- " ++ pyStr e) ++ [""], none)
  | .error e => ([header], some e)

/-- Perplexity._show_content: header (glow or plain), then the content. -/
def show_content (result : Json) (useGlow : Bool) : List String :=
  let header := if useGlow then "# Content" else display "Content" "yellow" true "blue"
  [header, pyStr result]

/-- The line display("No response content received", "yellow"). -/
def noContentLine : String :=
  display "No response content received" "yellow" false "black"

/-- The chained subscripts result["choices"][0]["message"]["content"] applied
to the value of "choices"; the first subscript to raise propagates. -/
def extractContent (choices : Json) : Except PyErr Json :=
  match pyIndex choices 0 with
  | .error e => .error e
  | .ok first =>
      match pyField first "message" with
      | .error e => .error e
      | .ok msg => pyField msg "content"

/-- The citations fragment of the 200 branch: the flag is checked first
(short-circuit), then membership, then the value is fetched and rendered. -/
def citationsPart (cfg : ApiConfig) (useGlow : Bool) (result : Json) : POut :=
  if cfg.citations then
    match pyContains result "citations" with
    | .error e => ([], some e)
    | .ok false => ([], none)
    | .ok true =>
        match pyField result "citations" with
        | .error e => ([], some e)
        | .ok v => show_citations v useGlow
  else ([], none)

/-- The usage fragment of the 200 branch. -/
def usagePart (cfg : ApiConfig) (useGlow : Bool) (result : Json) : POut :=
  if cfg.usage then
    match pyContains result "usage" with
    | .error e => ([], some e)
    | .ok false => ([], none)
    | .ok true =>
        match pyField result "usage" with
        | .error e => ([], some e)
        | .ok v => show_usage v useGlow
  else ([], none)

/-- The content fragment of the 200 branch: if "choices" is present and its
value truthy, extract choices[0].message.content and show it; otherwise print
the no-content notice.  A failing extraction raises. -/
def contentPart (useGlow : Bool) (result : Json) : POut :=
  match pyContains result "choices" with
  | .error e => ([], some e)
  | .ok false => ([noContentLine], none)
  | .ok true =>
      match pyField result "choices" with
      | .error e => ([], some e)
      | .ok ch =>
          if ch.truthy then
            match extractContent ch with
            | .error e => ([], some e)
            | .ok c => (show_content c useGlow, none)
          else ([noContentLine], none)

/-- The whole 200 branch of get_response on the parsed body. -/
def handle200 (cfg : ApiConfig) (useGlow : Bool) (result : Json) : POut :=
  (citationsPart cfg useGlow result).seq
    ((usagePart cfg useGlow result).seq (contentPart useGlow result))

/-- Result of ConfigManager.prompt_for_api_key run against an input script.
The prompt texts passed to input() are written to the terminal without a
newline and are not modelled as lines; display() calls are.  stuck marks
exhaustion of the model's input script (never reached in the claims). -/
inductive PromptRes where
  | stuck (lines : List String)
  | exit1 (lines : List String)
  | got (key : String) (lines : List String) (rest : List String) (fs : FileState)

/-- ConfigManager.prompt_for_api_key: two guidance lines, read and strip a
key (empty is fatal, sys.exit(1)), ask whether to save; on the answer y the
key is persisted via save_api_key and a confirmation line printed. -/
def prompt_for_api_key (inputs : List String) (fs : FileState) : PromptRes :=
  let g1 := display "No API key found. Please enter your Perplexity API key:" "yellow" false "black"
  let g2 := display "You can get one from: https://docs.perplexity.ai" "blue" false "black"
  match inputs with
  | [] => .stuck [g1, g2]
  | raw :: rest =>
      let apiKey := pyStrip raw
      if apiKey = "" then
        .exit1 [g1, g2, display "API key cannot be empty!" "red" false "black"]
      else
        match rest with
        | [] => .stuck [g1, g2]
        | saveChoice :: rest2 =>
            if pyLower (pyStrip saveChoice) = "y" then
              .got apiKey
                [g1, g2, display "API key saved successfully!" "green" false "black"]
                rest2 (save_api_key apiKey fs)
            else .got apiKey [g1, g2] rest2 fs

/-- Result of the api-key handling of Perplexity.__init__.  The key is a JSON
value because a settings-file entry is used as stored, whatever its type. -/
inductive ResolveRes where
  | stuck (lines : List String)
  | exit1 (lines : List String)
  | got (key : Json) (lines : List String) (rest : List String) (fs : FileState)

/-- The fallback of Perplexity.__init__ when --api-key is absent or falsy:
ConfigManager.get_api_key (environment, then settings file), else the
interactive prompt. -/
def resolveFallback (env : Option String) (fs : FileState)
    (inputs : List String) : ResolveRes :=
  match get_api_key env fs with
  | some k => .got k [] inputs fs
  | none =>
      match prompt_for_api_key inputs fs with
      | .stuck ls => .stuck ls
      | .exit1 ls => .exit1 ls
      | .got k ls rest fs2 => .got (.str k) ls rest fs2

/-- The api-key handling of Perplexity.__init__: the --api-key argument if
truthy, else the fallback above. -/
def resolveApiKey (argKey : Option String) (env : Option String) (fs : FileState)
    (inputs : List String) : ResolveRes :=
  match argKey with
  | some a => if a != "" then .got (.str a) [] inputs fs else resolveFallback env fs inputs
  | none => resolveFallback env fs inputs

/-- The key a ResolveRes resolved to, when it resolved one. -/
def ResolveRes.key? : ResolveRes → Option Json
  | .got k _ _ _ => some k
  | _ => none

/-- What the network returns for one requests.post call: a 200 with a parsed
JSON body, a 401, another status with its body text, or a transport-level
requests exception. -/
inductive HttpResp where
  | ok (body : Json)
  | unauthorized
  | other (code : Nat) (text : String)
  | netError (msg : String)

/-- How one program run ends: get_response returned normally, sys.exit(code)
was called, an exception escaped towards main's handler, or the model's
response/input script ran out (never reached in the claims). -/
inductive Outcome where
  | finished
  | exited (code : Nat)
  | raised (e : PyErr)
  | stuck
  deriving DecidableEq

/-- Observable trace of a run: the api key sent with each issued request (in
order), the lines printed, the outcome, and the final settings-file state. -/
structure Trace where
  requests : List Json
  lines : List String
  outcome : Outcome
  fs : FileState

/-- Perplexity.get_response, driven by a script of network responses (one is
consumed by each requests.post call) and a script of input() lines.  The
config.api_key sent (inside the Bearer header) with each issued request is
recorded.  On 401, answer y re-enters a key through prompt_for_api_key,
stores it in config.api_key and recurses; any other answer is sys.exit(1). -/
def getResponse (cfg : ApiConfig) (useGlow : Bool) (key : Json) :
    List HttpResp → List String → FileState → Trace
  | [], _, fs => ⟨[], [], .stuck, fs⟩
  | resp :: rs, inputs, fs =>
      match resp with
      | .netError m =>
          ⟨[key], [display ("Network error: " ++ m) "red" false "black"], .exited 1, fs⟩
      | .ok body =>
          let out := handle200 cfg useGlow body
          ⟨[key], out.1, match out.2 with | none => .finished | some e => .raised e, fs⟩
      | .other code text =>
          ⟨[key], [display ("Error " ++ toString code ++ ": " ++ text) "red" false "black"],
            .exited 1, fs⟩
      | .unauthorized =>
          let l0 := display "Invalid API key! Please check your API key." "red" false "black"
          match inputs with
          | [] => ⟨[key], [l0], .stuck, fs⟩
          | ans :: ins =>
              if pyLower (pyStrip ans) = "y" then
                match prompt_for_api_key ins fs with
                | .stuck pl => ⟨[key], l0 :: pl, .stuck, fs⟩
                | .exit1 pl => ⟨[key], l0 :: pl, .exited 1, fs⟩
                | .got newKey pl ins2 fs2 =>
                    let t := getResponse cfg useGlow (.str newKey) rs ins2 fs2
                    ⟨key :: t.requests, l0 :: (pl ++ t.lines), t.outcome, t.fs⟩
              else ⟨[key], [l0], .exited 1, fs⟩

/-- The argparse namespace fields that Perplexity and get_response read. -/
structure Args where
  query : String
  usage : Bool := false
  citations : Bool := false
  glow : Bool := false
  api_key : Option String := none
  model : String := "sonar-pro"

/-- Message text main shows for an exception escaping to its handler.  For
KeyError, str(e) is the repr of the missing key; TypeError texts are
interpreter wording and abbreviated here (no claim depends on them). -/
def errText : PyErr → String
  | .keyError k => "\x27" ++ k ++ "\x27"
  | .typeError => "TypeError"

/-- The query path of main (after --clear-config and missing-query handling):
construct Perplexity(args) — model validation first, then key resolution —
then get_response(query).  An InvalidSelectedModelException or any exception
escaping get_response is caught by the except-Exception handler, displayed as
an Error line, and the process exits 1; sys.exit calls pass through it. -/
def perplexityMain (args : Args) (env : Option String) (fs : FileState)
    (inputs : List String) (responses : List HttpResp) : Trace :=
  if ModelValidator.validate args.model then
    match resolveApiKey args.api_key env fs inputs with
    | .stuck ls => ⟨[], ls, .stuck, fs⟩
    | .exit1 ls => ⟨[], ls, .exited 1, fs⟩
    | .got key ls ins fs2 =>
        let cfg : ApiConfig :=
          { usage := args.usage, citations := args.citations, model := args.model }
        let t := getResponse cfg args.glow key responses ins fs2
        match t.outcome with
        | .raised e =>
            ⟨t.requests,
              ls ++ t.lines ++ [display ("Error: " ++ errText e) "red" false "black"],
              .exited 1, t.fs⟩
        | o => ⟨t.requests, ls ++ t.lines, o, t.fs⟩
  else
    ⟨[], [display ("Error: " ++ invalidModelMessage args.model) "red" false "black"],
      .exited 1, fs⟩

/-- An input script in which every 401 is answered y, the given key is
entered at the prompt, and saving is declined: one block of three input()
reads per retry round. -/
def yesScript : List String → List String
  | [] => []
  | k :: ks => "y" :: k :: "n" :: yesScript ks

/-- A well-formed 200 body: optional citations (a string array), optional
usage (an object), and a one-element choices array whose message.content is
the given string. -/
def mk200Result (pc : Bool) (cs : List String) (pu : Bool) (us : List (String × Json))
    (content : String) : Json :=
  .obj ((if pc then [("citations", Json.arr (cs.map .str))] else []) ++
        (if pu then [("usage", Json.obj us)] else []) ++
        [("choices", Json.arr [Json.obj [("message", Json.obj [("content", Json.str content)])]])])

/-- The six section header lines the renderer can print: the glow and the
plain variant for citations, usage and content. -/
def headerLines : List String :=
  ["# Citations", display "Citations" "yellow" true "blue",
   "# Tokens", display "Tokens" "yellow" true "blue",
   "# Content", display "Content" "yellow" true "blue"]

/-- Drop the section header lines from an output, keeping the data lines. -/
def stripHeaders (ls : List String) : List String :=
  ls.filter (fun l => !(headerLines.contains l))

/-- A 200 body whose single choice carries message.content "hi". -/
def okBody : Json :=
  .obj [("choices", .arr [.obj [("message", .obj [("content", .str "hi")])]])]

/-- A 200 body whose choices array is non-empty but whose first element has
no message field. -/
def badChoicesBody : Json :=
  .obj [("choices", .arr [.obj []])]

theorem lookup_dictSet_self (d : List (String × Json)) (k : String) (v : Json) :
    (dictSet d k v).lookup k = some v := by
  induction d with
  | nil => simp [dictSet, List.lookup]
  | cons p t ih =>
      obtain ⟨a, b⟩ := p
      by_cases hp : a = k
      · subst hp
        simp [dictSet, List.lookup]
      · have hk : (k == a) = false := beq_eq_false_iff_ne.mpr (Ne.symm hp)
        simp [dictSet, hp, List.lookup, hk, ih]

theorem lookup_dictSet_ne (d : List (String × Json)) (k : String) (v : Json)
    (k2 : String) (h : k2 ≠ k) :
    (dictSet d k v).lookup k2 = d.lookup k2 := by
  induction d with
  | nil => simp [dictSet, List.lookup, beq_eq_false_iff_ne.mpr h]
  | cons p t ih =>
      obtain ⟨a, b⟩ := p
      by_cases hp : a = k
      · subst hp
        simp [dictSet, List.lookup, beq_eq_false_iff_ne.mpr h]
      · cases hc : (k2 == a) <;> simp [dictSet, hp, List.lookup, hc, ih]

/-- C7: for every settings mapping containing an api_key entry with value K,
save_config followed by load_config returns a mapping that again contains
the api_key entry with value K. -/
theorem save_load_roundtrip (d : List (String × Json)) (K : String) (fs : FileState)
    (h : d.lookup "api_key" = some (.str K)) :
    (load_config (save_config d fs)).lookup "api_key" = some (.str K) := by
  simpa [load_config, save_config] using h

theorem save_load_roundtrip_witness :
    ([("api_key", Json.str "K")].lookup "api_key" = some (Json.str "K")) ∧
    (load_config (save_config [("api_key", Json.str "K")] .absent)).lookup "api_key"
      = some (Json.str "K") :=
  ⟨rfl, save_load_roundtrip _ "K" .absent rfl⟩

/-- C8: load_config returns the empty mapping whenever the settings file is
absent or its contents are unreadable or malformed; being a total function of
the file state, it returns (the failure is only logged) rather than raising. -/
theorem load_config_degrades_to_empty :
    load_config .absent = [] ∧ load_config .malformed = [] :=
  ⟨rfl, rfl⟩

/-- C10: save_api_key loads the stored mapping S, updates only the api_key
entry and writes the result back: the stored mapping afterwards is S with
api_key set to the new key, every other key keeping its prior value. -/
theorem save_api_key_frame (S : List (String × Json)) (k : String) :
    load_config (save_api_key k (.stored S)) = dictSet S "api_key" (.str k) ∧
    (dictSet S "api_key" (.str k)).lookup "api_key" = some (.str k) ∧
    ∀ k2, k2 ≠ "api_key" → (dictSet S "api_key" (.str k)).lookup k2 = S.lookup k2 :=
  ⟨rfl, lookup_dictSet_self _ _ _, fun _ h => lookup_dictSet_ne _ _ _ _ h⟩

theorem save_api_key_frame_witness :
    ("other" ≠ "api_key") ∧
    (dictSet [("other", Json.num 1)] "api_key" (Json.str "Z")).lookup "other"
      = [("other", Json.num 1)].lookup "other" :=
  ⟨by decide, (save_api_key_frame [("other", Json.num 1)] "Z").2.2 "other" (by decide)⟩

/-- C4: with a model identifier outside AVAILABLE_MODELS, the run prints only
the Error line carrying the InvalidSelectedModelException message (which names
the offending value and lists the valid set), exits with code 1, and issues
zero network requests; the response, input and file scripts are untouched. -/
theorem invalid_model_no_network (args : Args) (env : Option String) (fs : FileState)
    (inputs : List String) (responses : List HttpResp)
    (h : args.model ∉ AVAILABLE_MODELS) :
    perplexityMain args env fs inputs responses =
      ⟨[], [display ("Error: " ++ invalidModelMessage args.model) "red" false "black"],
        .exited 1, fs⟩ := by
  have hv : ModelValidator.validate args.model = false := by
    simp only [ModelValidator.validate]
    simpa using h
  simp [perplexityMain, hv]

theorem invalid_model_no_network_witness :
    ("not-a-real-model" ∉ AVAILABLE_MODELS) ∧
    perplexityMain ⟨"q", false, false, false, some "K", "not-a-real-model"⟩ none .absent [] []
      = ⟨[], [display ("Error: " ++ invalidModelMessage "not-a-real-model") "red" false "black"],
          .exited 1, .absent⟩ :=
  ⟨by decide, invalid_model_no_network _ none .absent [] [] (by decide)⟩

/-- C1: credential resolution returns the highest-priority present source in
the order explicit --api-key value, PERPLEXITY_API_KEY environment variable,
settings-file api_key entry, interactively prompted key, for every
combination of the three non-interactive sources being present or absent
(present values non-empty; the prompted key is read, stripped, and here not
saved). -/
theorem credential_precedence (be bv bs : Bool) (e v s p : String)
    (he : e ≠ "") (hv : v ≠ "") (hs : s ≠ "") (hp : pyStrip p ≠ "") :
    (resolveApiKey (if be then some e else none) (if bv then some v else none)
        (if bs then .stored [("api_key", .str s)] else .absent) [p, "n"]).key?
      = some (.str (if be then e else if bv then v else if bs then s else pyStrip p)) := by
  have hn : pyLower (pyStrip "n") ≠ "y" := by decide
  cases be <;> cases bv <;> cases bs <;>
    simp [resolveApiKey, resolveFallback, get_api_key, load_config, prompt_for_api_key,
      ResolveRes.key?, List.lookup, bne_iff_ne, he, hv, hs, hp, hn]

theorem credential_precedence_witness :
    ("X" ≠ "") ∧ ("Y" ≠ "") ∧ ("S" ≠ "") ∧ (pyStrip "P" ≠ "") ∧
    (resolveApiKey (if true then some "X" else none) (if true then some "Y" else none)
        (if false then .stored [("api_key", .str "S")] else .absent) ["P", "n"]).key?
      = some (.str (if true then "X" else if true then "Y" else if false then "S"
          else pyStrip "P")) :=
  ⟨by decide, by decide, by decide, by decide,
    credential_precedence true true false "X" "Y" "S" "P"
      (by decide) (by decide) (by decide) (by decide)⟩

/-- C6: when the first response is a 401 and the user's (stripped, lowercased)
answer to the retry prompt is anything other than y, the run prints the
invalid-key notice, exits with code 1, and issues no second request — even
though a second response was available in the script. -/
theorem decline_retry_exits (cfg : ApiConfig) (useGlow : Bool) (key : Json)
    (r2 : HttpResp) (ins : List String) (fs : FileState) (ans : String)
    (h : pyLower (pyStrip ans) ≠ "y") :
    getResponse cfg useGlow key [.unauthorized, r2] (ans :: ins) fs =
      ⟨[key], [display "Invalid API key! Please check your API key." "red" false "black"],
        .exited 1, fs⟩ := by
  simp [getResponse, h]

theorem decline_retry_exits_witness :
    (pyLower (pyStrip "no") ≠ "y") ∧
    getResponse ⟨false, false, "sonar-pro"⟩ false (.str "K") [.unauthorized, .ok okBody]
        ["no"] .absent
      = ⟨[.str "K"],
          [display "Invalid API key! Please check your API key." "red" false "black"],
          .exited 1, .absent⟩ :=
  ⟨by decide, decline_retry_exits ⟨false, false, "sonar-pro"⟩ false (.str "K")
      (.ok okBody) [] .absent "no" (by decide)⟩

theorem POut.seq_nil_left (x : POut) : POut.seq ([], none) x = x := by
  obtain ⟨l, e⟩ := x
  rfl

theorem getResponse_single_request (cfg : ApiConfig) (useGlow : Bool) (key : Json)
    (r : HttpResp) (fs : FileState) :
    (getResponse cfg useGlow key [r] [] fs).requests = [key] := by
  cases r <;> simp [getResponse]

theorem retry_requests_step (cfg : ApiConfig) (useGlow : Bool) (key : Json)
    (rs : List HttpResp) (ins : List String) (fs : FileState) (k : String)
    (hk : pyStrip k ≠ "") :
    (getResponse cfg useGlow key (.unauthorized :: rs) ("y" :: k :: "n" :: ins) fs).requests
      = key :: (getResponse cfg useGlow (.str (pyStrip k)) rs ins fs).requests := by
  have hy : pyLower (pyStrip "y") = "y" := by decide
  have hn : pyLower (pyStrip "n") ≠ "y" := by decide
  simp [getResponse, prompt_for_api_key, hk, hy, hn]

/-- C2 counterexample: with the first two responses 401 and the user
answering yes twice (entering keys Z1 then Z2, declining to save), three
requests are issued in one invocation — the second yes produces a second
retry request, so at most one retry does not hold. -/
theorem retry_not_bounded :
    (getResponse ⟨false, false, "sonar-pro"⟩ false (.str "K")
        [.unauthorized, .unauthorized, .ok okBody]
        ["y", "Z1", "n", "y", "Z2", "n"] .absent).requests
      = [.str "K", .str "Z1", .str "Z2"] ∧
    ¬ ((getResponse ⟨false, false, "sonar-pro"⟩ false (.str "K")
        [.unauthorized, .unauthorized, .ok okBody]
        ["y", "Z1", "n", "y", "Z2", "n"] .absent).requests.length ≤ 2) :=
  ⟨rfl, by decide⟩

/-- C2 amended: each 401 answered yes triggers exactly one further request
with the newly entered (stripped) key, without bound: for every n, with n
consecutive 401 responses each answered yes with a non-blank key and a
declined save, n + 1 requests are issued across the invocation, whatever the
final response is. -/
theorem retry_one_request_per_confirmation (cfg : ApiConfig) (useGlow : Bool) (key : Json)
    (r : HttpResp) (keys : List String) (fs : FileState)
    (hk : ∀ k ∈ keys, pyStrip k ≠ "") :
    (getResponse cfg useGlow key (List.replicate keys.length .unauthorized ++ [r])
        (yesScript keys) fs).requests.length = keys.length + 1 := by
  induction keys generalizing key fs with
  | nil => simp [yesScript, getResponse_single_request]
  | cons k ks ih =>
      have hkh : pyStrip k ≠ "" := hk k (by simp)
      have hkt : ∀ k2 ∈ ks, pyStrip k2 ≠ "" := fun k2 h2 => hk k2 (by simp [h2])
      simp [yesScript, List.replicate, retry_requests_step cfg useGlow key _ _ fs k hkh,
        ih (.str (pyStrip k)) fs hkt]

theorem retry_one_request_per_confirmation_witness :
    (∀ k ∈ ["Z"], pyStrip k ≠ "") ∧
    (getResponse ⟨false, false, "sonar-pro"⟩ false (.str "K")
        (List.replicate (["Z"].length) .unauthorized ++ [.ok okBody])
        (yesScript ["Z"]) .absent).requests.length = ["Z"].length + 1 :=
  ⟨by decide, retry_one_request_per_confirmation ⟨false, false, "sonar-pro"⟩ false (.str "K")
      (.ok okBody) ["Z"] .absent (by decide)⟩

/-- C3 counterexample: on a 200 response whose body is
obj choices = [obj {}] — a choices array with one element whose
message.content is missing — the run ends with exit code 1 (the KeyError
escapes to main's handler) and the no-content notice is never printed, so
"a no content notice is rendered instead, and the program does not fail"
does not hold for the message.content-missing case. -/
theorem missing_content_fails :
    (perplexityMain ⟨"q", false, false, false, some "K", "sonar-pro"⟩ none .absent []
        [.ok badChoicesBody]).outcome = .exited 1 ∧
    noContentLine ∉ (perplexityMain ⟨"q", false, false, false, some "K", "sonar-pro"⟩
        none .absent [] [.ok badChoicesBody]).lines :=
  ⟨rfl, by decide⟩

/-- C3 amended: for a 200 response with an object body (citations and usage
flags off), the content is rendered iff "choices" is present, truthy, and
choices[0].message.content extracts; when "choices" is absent or falsy the
no-content notice is rendered and nothing is raised; when "choices" is
present and truthy but the extraction fails, the exception propagates — no
notice is printed and the program exits with code 1. -/
theorem content_rendering_amended (fields : List (String × Json)) (useGlow : Bool)
    (m : String) :
    (fields.lookup "choices" = none →
      handle200 ⟨false, false, m⟩ useGlow (.obj fields) = ([noContentLine], none)) ∧
    (∀ v, fields.lookup "choices" = some v → v.truthy = false →
      handle200 ⟨false, false, m⟩ useGlow (.obj fields) = ([noContentLine], none)) ∧
    (∀ v c, fields.lookup "choices" = some v → v.truthy = true → extractContent v = .ok c →
      handle200 ⟨false, false, m⟩ useGlow (.obj fields) = (show_content c useGlow, none)) ∧
    (∀ v err, fields.lookup "choices" = some v → v.truthy = true →
      extractContent v = .error err →
      handle200 ⟨false, false, m⟩ useGlow (.obj fields) = ([], some err) ∧
      (perplexityMain ⟨"q", false, false, useGlow, some "K", "sonar-pro"⟩ none .absent []
          [.ok (.obj fields)]).outcome = .exited 1) := by
  have hseq : ∀ x : POut, handle200 ⟨false, false, m⟩ useGlow (.obj fields)
      = contentPart useGlow (.obj fields) := by
    intro _
    simp [handle200, citationsPart, usagePart, POut.seq_nil_left]
  refine ⟨?_, ?_, ?_, ?_⟩
  · intro h
    rw [hseq ([], none)]
    simp [contentPart, pyContains, h]
  · intro v h ht
    rw [hseq ([], none)]
    simp [contentPart, pyContains, pyField, h, ht]
  · intro v c h ht he
    rw [hseq ([], none)]
    simp [contentPart, pyContains, pyField, h, ht, he]
  · intro v err h ht he
    have hh : handle200 ⟨false, false, "sonar-pro"⟩ useGlow (.obj fields) = ([], some err) := by
      have : handle200 ⟨false, false, "sonar-pro"⟩ useGlow (.obj fields)
          = contentPart useGlow (.obj fields) := by
        simp [handle200, citationsPart, usagePart, POut.seq_nil_left]
      rw [this]
      simp [contentPart, pyContains, pyField, h, ht, he]
    refine ⟨?_, ?_⟩
    · rw [hseq ([], none)]
      simp [contentPart, pyContains, pyField, h, ht, he]
    · simp [perplexityMain, ModelValidator.validate, AVAILABLE_MODELS, resolveApiKey,
        getResponse, hh]

theorem content_rendering_amended_witness :
    (List.lookup "choices"
        [("choices", Json.arr [Json.obj [("message", Json.obj [("content", Json.str "hi")])]])]
      = some (Json.arr [Json.obj [("message", Json.obj [("content", Json.str "hi")])]])) ∧
    (Json.arr [Json.obj [("message", Json.obj [("content", Json.str "hi")])]]).truthy
      = true ∧
    extractContent (Json.arr [Json.obj [("message", Json.obj [("content", Json.str "hi")])]])
      = .ok (Json.str "hi") ∧
    handle200 ⟨false, false, "sonar-pro"⟩ false
        (.obj [("choices", Json.arr [Json.obj [("message",
          Json.obj [("content", Json.str "hi")])]])])
      = (show_content (Json.str "hi") false, none) :=
  ⟨rfl, rfl, rfl,
    (content_rendering_amended _ false "sonar-pro").2.2.1 _ _ rfl rfl rfl⟩

/-- C5: on a 200 response carrying optional citations and usage fields and a
well-formed choices entry, the output is exactly the citations section (only
when the citations flag is set and the field present), then the usage section
(only when the usage flag is set and the field present), then the content
section, each under its own header, and nothing is raised. -/
theorem rendering_order (fc fu pc pu : Bool) (cs : List String)
    (us : List (String × Json)) (content : String) (useGlow : Bool) (m : String) :
    handle200 ⟨fu, fc, m⟩ useGlow (mk200Result pc cs pu us content) =
      ((if fc ∧ pc then
          (if useGlow then "# Citations" else display "Citations" "yellow" true "blue") ::
            (cs.map (fun s => "- " ++ s) ++ [""])
        else []) ++
       (if fu ∧ pu then
          (if useGlow then "# Tokens" else display "Tokens" "yellow" true "blue") ::
            (us.map (fun p => "- " ++ p.1 ++ ": " ++ pyStr p.2) ++ [""])
        else []) ++
       show_content (.str content) useGlow, none) := by
  cases fc <;> cases fu <;> cases pc <;> cases pu <;>
    simp [handle200, citationsPart, usagePart, contentPart, mk200Result, pyContains,
      pyField, show_citations, show_usage, show_content, pyIter, POut.seq, pyIndex,
      extractContent, Json.truthy, List.lookup, List.get?, pyStr, List.map_map,
      Function.comp]

theorem stripHeaders_show_citations (v : Json) :
    stripHeaders (show_citations v true).1 = stripHeaders (show_citations v false).1 ∧
    (show_citations v true).2 = (show_citations v false).2 := by
  have h1 : "# Citations" ∈ headerLines := by decide
  have h2 : display "Citations" "yellow" true "blue" ∈ headerLines := by decide
  cases hv : pyIter v <;> simp [show_citations, stripHeaders, hv, h1, h2]

theorem stripHeaders_show_usage (v : Json) :
    stripHeaders (show_usage v true).1 = stripHeaders (show_usage v false).1 ∧
    (show_usage v true).2 = (show_usage v false).2 := by
  have h1 : "# Tokens" ∈ headerLines := by decide
  have h2 : display "Tokens" "yellow" true "blue" ∈ headerLines := by decide
  cases v <;> simp [show_usage, stripHeaders, h1, h2]

theorem stripHeaders_show_content (v : Json) :
    stripHeaders (show_content v true) = stripHeaders (show_content v false) := by
  have h1 : "# Content" ∈ headerLines := by decide
  have h2 : display "Content" "yellow" true "blue" ∈ headerLines := by decide
  simp [show_content, stripHeaders, h1, h2]

theorem stripHeaders_citationsPart (cfg : ApiConfig) (r : Json) :
    stripHeaders (citationsPart cfg true r).1 = stripHeaders (citationsPart cfg false r).1 ∧
    (citationsPart cfg true r).2 = (citationsPart cfg false r).2 := by
  by_cases hf : cfg.citations
  · cases hc : pyContains r "citations" with
    | error e => simp [citationsPart, hf, hc]
    | ok b =>
        cases b
        · simp [citationsPart, hf, hc]
        · cases hfld : pyField r "citations" with
          | error e => simp [citationsPart, hf, hc, hfld]
          | ok v =>
              simpa [citationsPart, hf, hc, hfld] using stripHeaders_show_citations v
  · simp [citationsPart, hf]

theorem stripHeaders_usagePart (cfg : ApiConfig) (r : Json) :
    stripHeaders (usagePart cfg true r).1 = stripHeaders (usagePart cfg false r).1 ∧
    (usagePart cfg true r).2 = (usagePart cfg false r).2 := by
  by_cases hf : cfg.usage
  · cases hc : pyContains r "usage" with
    | error e => simp [usagePart, hf, hc]
    | ok b =>
        cases b
        · simp [usagePart, hf, hc]
        · cases hfld : pyField r "usage" with
          | error e => simp [usagePart, hf, hc, hfld]
          | ok v =>
              simpa [usagePart, hf, hc, hfld] using stripHeaders_show_usage v
  · simp [usagePart, hf]

theorem stripHeaders_contentPart (r : Json) :
    stripHeaders (contentPart true r).1 = stripHeaders (contentPart false r).1 ∧
    (contentPart true r).2 = (contentPart false r).2 := by
  cases hc : pyContains r "choices" with
  | error e => simp [contentPart, hc]
  | ok b =>
      cases b
      · simp [contentPart, hc]
      · cases hfld : pyField r "choices" with
        | error e => simp [contentPart, hc, hfld]
        | ok ch =>
            by_cases ht : ch.truthy
            · cases he : extractContent ch with
              | error e => simp [contentPart, hc, hfld, ht, he]
              | ok c =>
                  simpa [contentPart, hc, hfld, ht, he] using stripHeaders_show_content c
            · simp [contentPart, hc, hfld, ht]

theorem stripHeaders_seq (a b a2 b2 : POut)
    (ha : stripHeaders a.1 = stripHeaders a2.1) (hae : a.2 = a2.2)
    (hb : stripHeaders b.1 = stripHeaders b2.1) (hbe : b.2 = b2.2) :
    stripHeaders (a.seq b).1 = stripHeaders (a2.seq b2).1 ∧ (a.seq b).2 = (a2.seq b2).2 := by
  obtain ⟨l1, e1⟩ := a
  obtain ⟨l2, e2⟩ := b
  obtain ⟨l3, e3⟩ := a2
  obtain ⟨l4, e4⟩ := b2
  simp only at ha hae hb hbe
  subst hae hbe
  cases e1 with
  | some e => exact ⟨by simpa [POut.seq] using ha, rfl⟩
  | none =>
      refine ⟨?_, rfl⟩
      simp only [POut.seq]
      simp only [stripHeaders, List.filter_append] at ha hb ⊢
      rw [ha, hb]

/-- C9: for every 200 body and flag combination, the run with the glow header
style and the run with the plain header style print the same lines apart from
the section header lines (stripping the six header lines yields identical
output), and raise identically. -/
theorem glow_affects_only_headers (fc fu : Bool) (m : String) (result : Json) :
    stripHeaders (handle200 ⟨fu, fc, m⟩ true result).1
      = stripHeaders (handle200 ⟨fu, fc, m⟩ false result).1 ∧
    (handle200 ⟨fu, fc, m⟩ true result).2 = (handle200 ⟨fu, fc, m⟩ false result).2 := by
  have hc := stripHeaders_citationsPart ⟨fu, fc, m⟩ result
  have hu := stripHeaders_usagePart ⟨fu, fc, m⟩ result
  have hk := stripHeaders_contentPart result
  have hinner := stripHeaders_seq _ _ _ _ hu.1 hu.2 hk.1 hk.2
  have houter := stripHeaders_seq _ _ _ _ hc.1 hc.2 hinner.1 hinner.2
  simpa [handle200] using houter

end PerplexityCli
